import Mathlib

/-!
# Verification of the HubSpot listings importer normalization pipeline

Shallow embedding of the normalization and reconciliation pipeline of the
`hubspot-listings-importer` repository (`src/transformer.js`,
`src/hubspot-client.js`, `src/properties.js`), together with theorems that
settle the specification claims about it.

Feed values are JSON scalars; numbers are modelled as rationals (JavaScript
`NaN`/`Infinity` spellings are outside the model, and no claim depends on
them).  The host timezone is modelled as UTC.
-/

namespace HubSpotImporter

/-- A JavaScript scalar value as it occurs in a feed record or a transformed
record.  `undefined` models an absent property. -/
inductive JSValue where
  | undefined : JSValue
  | null : JSValue
  | bool : Bool → JSValue
  | num : ℚ → JSValue
  | str : String → JSValue
  | protoValue : String → JSValue
deriving DecidableEq, Repr

/-!
`protoValue k` models the non-scalar value found on `Object.prototype`
under the property name `k`: a plain object literal such as the
`STATE_NAME_TO_CODE` table inherits these members through its prototype
chain, so indexing the table with `"constructor"`, `"toString"`,
`"__proto__"` and the like yields a truthy function or object rather than
`undefined`.  Feed records themselves are JSON and never contain such a
value; it arises only as a lookup result.
-/

/-- JavaScript truthiness for the modelled values (every function or
object, in particular an inherited `Object.prototype` member, is
truthy). -/
def truthy : JSValue → Bool
  | .undefined => false
  | .null => false
  | .bool b => b
  | .num q => q != 0
  | .str s => s != ""
  | .protoValue _ => true

/-- `String(x)` on the modelled values.  Inherited `Object.prototype`
members are rendered with a fixed representative string: feed records never
contain them, so no theorem depends on that rendering. -/
def jsString : JSValue → String
  | .undefined => "undefined"
  | .null => "null"
  | .bool true => "true"
  | .bool false => "false"
  | .num q => if q.den = 1 then toString q.num else toString q
  | .str s => s
  | .protoValue _ => "[object Object]"

/-- ASCII lower-casing of one character. -/
def lowerChar (c : Char) : Char :=
  if 'A' ≤ c ∧ c ≤ 'Z' then Char.ofNat (c.toNat + 32) else c

/-- ASCII upper-casing of one character. -/
def upperChar (c : Char) : Char :=
  if 'a' ≤ c ∧ c ≤ 'z' then Char.ofNat (c.toNat - 32) else c

/-- `String.prototype.toLowerCase` restricted to ASCII. -/
def toLowerStr (s : String) : String := ⟨s.toList.map lowerChar⟩

/-- `String.prototype.toUpperCase` restricted to ASCII. -/
def toUpperStr (s : String) : String := ⟨s.toList.map upperChar⟩

/-- Whitespace characters recognised by `trim` and `parseFloat`. -/
def isWs (c : Char) : Bool := c = ' ' || c = '\t' || c = '\n' || c = '\r'

/-- `String.prototype.trim`. -/
def trimStr (s : String) : String :=
  ⟨((s.toList.dropWhile isWs).reverse.dropWhile isWs).reverse⟩

/-- Decimal digit test. -/
def isDigit (c : Char) : Bool := '0' ≤ c && c ≤ '9'

/-- Digit value of a character. -/
def digitVal (c : Char) : ℕ := c.toNat - 48

/-- Collect a maximal run of leading decimal digits. -/
def takeDigits : List Char → List Char × List Char
  | [] => ([], [])
  | c :: cs =>
    if isDigit c then
      let (ds, rest) := takeDigits cs
      (c :: ds, rest)
    else ([], c :: cs)

/-- Numeric value of a digit run. -/
def digitsToNat (ds : List Char) : ℕ :=
  ds.foldl (fun acc c => acc * 10 + digitVal c) 0

/-- Leading-prefix floating point parse of a string, as done by JavaScript
`parseFloat`: optional whitespace, optional sign, digits with optional
fraction, optional exponent; trailing garbage is ignored; no digits means
`NaN`, modelled as `none`. -/
def parseFloatChars (cs : List Char) : Option ℚ :=
  let cs := cs.dropWhile isWs
  let (neg, cs) : Bool × List Char :=
    match cs with
    | '-' :: rest => (true, rest)
    | '+' :: rest => (false, rest)
    | _ => (false, cs)
  let (intDs, cs) := takeDigits cs
  let (fracDs, cs) :=
    match cs with
    | '.' :: rest => takeDigits rest
    | _ => ([], cs)
  if intDs.isEmpty && fracDs.isEmpty then none
  else
    let mant : ℤ :=
      (digitsToNat intDs : ℤ) * 10 ^ fracDs.length + (digitsToNat fracDs : ℤ)
    let signed : ℤ := if neg then -mant else mant
    let exp : ℤ :=
      match cs with
      | 'e' :: rest | 'E' :: rest =>
        match rest with
        | '-' :: rest2 =>
          let (eDs, _) := takeDigits rest2
          if eDs.isEmpty then 0 else -(digitsToNat eDs : ℤ)
        | '+' :: rest2 =>
          let (eDs, _) := takeDigits rest2
          if eDs.isEmpty then 0 else (digitsToNat eDs : ℤ)
        | _ =>
          let (eDs, _) := takeDigits rest
          if eDs.isEmpty then 0 else (digitsToNat eDs : ℤ)
      | _ => 0
    if 0 ≤ exp then some (mkRat (signed * 10 ^ exp.toNat) (10 ^ fracDs.length))
    else some (mkRat signed (10 ^ fracDs.length * 10 ^ (-exp).toNat))

/-- `parseFloat` applied to a scalar value (the value is stringified first by
JavaScript; non-numeric strings yield `NaN`, modelled as `none`). -/
def parseFloatJS : JSValue → Option ℚ
  | .num q => some q
  | .str s => parseFloatChars s.toList
  | _ => none

/-- Embedding of `DataTransformer.parseNumber` (`src/transformer.js`):
null, undefined and the empty string yield null; otherwise the value is sent
through `parseFloat` and `NaN` yields null. -/
def parseNumber (v : JSValue) : Option ℚ :=
  if v = .null ∨ v = .undefined ∨ v = .str "" then none else parseFloatJS v

/-- Embedding of `DataTransformer.parseBoolean` (`src/transformer.js`);
for a non-scalar value the final `return Boolean(value)` line applies, and
`Boolean` of any object or function is true. -/
def parseBoolean : JSValue → Option Bool
  | .null => none
  | .undefined => none
  | .bool b => some b
  | .str s => some (toLowerStr s == "true" || s == "1" || toLowerStr s == "yes")
  | .num q => some (q != 0)
  | .protoValue _ => some true

/-! ## Calendar arithmetic and ISO 8601 date strings

`DataTransformer.parseDate` hands string input to the JavaScript `Date`
constructor.  The model implements the ISO 8601 subset
`YYYY-MM-DD[THH:MM[:SS[.mmm]][Z]]` (the format used throughout the feed and
the repository test data); with the host timezone modelled as UTC, a
date-time without offset denotes the same instant as one suffixed `Z`.
Strings outside this subset are modelled as an invalid date. -/

/-- Leap year predicate (proleptic Gregorian). -/
def isLeapYear (y : ℤ) : Bool := (y % 4 == 0 && y % 100 != 0) || y % 400 == 0

/-- Number of days in a month. -/
def daysInMonth (y : ℤ) (m : ℕ) : ℕ :=
  if m = 2 then (if isLeapYear y then 29 else 28)
  else if m = 4 ∨ m = 6 ∨ m = 9 ∨ m = 11 then 30
  else 31

/-- Days from the Unix epoch (1970-01-01) to the civil date `y-m-d`
(Howard Hinnant's algorithm, using floor division). -/
def daysFromCivil (y : ℤ) (m d : ℕ) : ℤ :=
  let yAdj : ℤ := if m ≤ 2 then y - 1 else y
  let era : ℤ := Int.fdiv yAdj 400
  let yoe : ℤ := yAdj - era * 400
  let mp : ℤ := if m > 2 then (m : ℤ) - 3 else (m : ℤ) + 9
  let doy : ℤ := Int.fdiv (153 * mp + 2) 5 + (d : ℤ) - 1
  let doe : ℤ := yoe * 365 + Int.fdiv yoe 4 - Int.fdiv yoe 100 + doy
  era * 146097 + doe - 719468

/-- Parsed components of an ISO 8601 date-time string. -/
structure DateParts where
  year : ℤ
  month : ℕ
  day : ℕ
  hour : ℕ
  minute : ℕ
  second : ℕ
  millis : ℕ
deriving DecidableEq, Repr

/-- Epoch milliseconds of parsed date components (UTC). -/
def epochMillis (d : DateParts) : ℤ :=
  daysFromCivil d.year d.month d.day * 86400000
    + (d.hour : ℤ) * 3600000 + (d.minute : ℤ) * 60000
    + (d.second : ℤ) * 1000 + (d.millis : ℤ)

/-- Read exactly `n` decimal digits. -/
def readDigits (n : ℕ) (cs : List Char) : Option (ℕ × List Char) :=
  match n with
  | 0 => some (0, cs)
  | Nat.succ k =>
    match cs with
    | c :: rest =>
      if isDigit c then
        (readDigits k rest).map (fun p => (digitVal c * 10 ^ k + p.1, p.2))
      else none
    | [] => none

/-- Parse the optional time-of-day part `HH:MM[:SS[.mmm]][Z]` of an ISO
string; returns the hour, minute, second and millisecond fields. -/
def readTimePart (cs : List Char) : Option (ℕ × ℕ × ℕ × ℕ) :=
  match readDigits 2 cs with
  | none => none
  | some (h, cs) =>
    match cs with
    | ':' :: cs =>
      match readDigits 2 cs with
      | none => none
      | some (mi, cs) =>
        let (sec, ms, cs) :=
          match cs with
          | ':' :: cs2 =>
            match readDigits 2 cs2 with
            | none => (0, 0, ':' :: cs2)
            | some (s, cs3) =>
              match cs3 with
              | '.' :: cs4 =>
                let (ds, cs5) := takeDigits cs4
                if ds.isEmpty ∨ 3 < ds.length then (s, 0, '.' :: cs4)
                else (s, digitsToNat ds * 10 ^ (3 - ds.length), cs5)
              | _ => (s, 0, cs3)
          | _ => (0, 0, cs)
        match cs with
        | [] => some (h, mi, sec, ms)
        | ['Z'] => some (h, mi, sec, ms)
        | _ => none
    | _ => none

/-- Parse an ISO 8601 date or date-time string, validating the calendar
fields; anything else is an invalid date (`none`). -/
def parseIsoDate (s : String) : Option DateParts :=
  match readDigits 4 s.toList with
  | none => none
  | some (y, cs) =>
    match cs with
    | '-' :: cs =>
      match readDigits 2 cs with
      | none => none
      | some (m, cs) =>
        match cs with
        | '-' :: cs =>
          match readDigits 2 cs with
          | none => none
          | some (d, cs) =>
            if 1 ≤ m ∧ m ≤ 12 ∧ 1 ≤ d ∧ d ≤ daysInMonth (y : ℤ) m then
              match cs with
              | [] => some ⟨(y : ℤ), m, d, 0, 0, 0, 0⟩
              | 'T' :: rest =>
                match readTimePart rest with
                | some (h, mi, sec, ms) =>
                  if h ≤ 23 ∧ mi ≤ 59 ∧ sec ≤ 59 then
                    some ⟨(y : ℤ), m, d, h, mi, sec, ms⟩
                  else none
                | none => none
              | _ => none
            else none
        | _ => none
    | _ => none

/-- Truncation toward zero, as applied by the JavaScript `Date` constructor
to a fractional milliseconds argument. -/
def ratTrunc (q : ℚ) : ℤ := Int.tdiv q.num q.den

/-- Scaling by 1000, spelled so that it evaluates on literals. -/
def ratTimes1000 (q : ℚ) : ℚ := mkRat (q.num * 1000) q.den

/-- The seconds-versus-milliseconds heuristic of the numeric branch of
`parseDate`: values below 10^10 are treated as epoch seconds and scaled to
milliseconds. -/
def jsDateScale (q : ℚ) : ℚ := if q < 10000000000 then ratTimes1000 q else q

/-- Largest magnitude (in ms) representable by a JavaScript `Date`. -/
def maxDateMillis : ℚ := 8640000000000000

/-- The aggregated-warning categories of `DataTransformer.resetWarnings`
(`src/transformer.js`). -/
inductive WarnType where
  | invalidStateCode
  | stateDerivationFailed
  | invalidDate
  | dateOutOfRange
  | unsupportedDateType
  | dateParseError
deriving DecidableEq, Repr

/-- A warning event: the category together with the example value recorded
by `trackWarning` (stringified). -/
abbrev WEvent := WarnType × String

/-- `typeof` of an inherited `Object.prototype` member: `Object.prototype`
itself (reached through `__proto__`) is an object; every other member is a
function. -/
def protoTypeof (k : String) : String :=
  if k = "__proto__" then "object" else "function"

/-- Embedding of `DataTransformer.parseDate` (`src/transformer.js`):
falsy input yields null; numeric input is scaled from seconds to
milliseconds when below 10^10 and returned without any range check whenever
it forms a valid `Date`; string input is rejected for the trivial spellings,
parsed, checked against the year range [1900, 2100], and otherwise returned;
any other input type yields null plus an unsupported-type warning.  Warnings
are returned as emitted events. -/
def parseDate (v : JSValue) : Option ℤ × List WEvent :=
  if truthy v = false then (none, [])
  else
    match v with
    | .num q =>
      let ts : ℚ := jsDateScale q
      if -maxDateMillis ≤ ts ∧ ts ≤ maxDateMillis then (some (ratTrunc ts), [])
      else (none, [(.unsupportedDateType, "number")])
    | .str s =>
      if trimStr s = "" ∨ s = "null" ∨ s = "undefined" then (none, [])
      else
        match parseIsoDate s with
        | none => (none, [(.invalidDate, s)])
        | some d =>
          if d.year < 1900 ∨ 2100 < d.year then (none, [(.dateOutOfRange, s)])
          else (some (epochMillis d), [])
    | .bool _ => (none, [(.unsupportedDateType, "boolean")])
    | .protoValue k => (none, [(.unsupportedDateType, protoTypeof k)])
    | .null => (none, [])
    | .undefined => (none, [])

example : parseDate (.num 1705320645000) = (some 1705320645000, []) := by decide
example : parseDate (.num 1705320645) = (some 1705320645000, []) := by decide
example : parseDate (.str "2024-01-15") = (some 1705276800000, []) := by decide
example : parseDate (.str "2024-01-15T14:30:45Z") = (some 1705329045000, []) := by decide
example : (parseDate (.str "not-a-date")).1 = none := by decide
example : parseDate (.str "2150-01-01") = (none, [(.dateOutOfRange, "2150-01-01")]) := by decide

/-! ## State codes (`src/properties.js`, `src/transformer.js`) -/

/-- The values of `US_STATE_CODES` in `src/properties.js` (the 50 states
plus the District of Columbia), i.e. the contents of `VALID_STATE_CODES`. -/
def VALID_STATE_CODES : List String :=
  ["AL", "AK", "AZ", "AR", "CA", "CO", "CT", "DE", "DC", "FL", "GA", "HI",
   "ID", "IL", "IN", "IA", "KS", "KY", "LA", "ME", "MD", "MA", "MI", "MN",
   "MS", "MO", "MT", "NE", "NV", "NH", "NJ", "NM", "NY", "NC", "ND", "OH",
   "OK", "OR", "PA", "RI", "SC", "SD", "TN", "TX", "UT", "VT", "VA", "WA",
   "WV", "WI", "WY"]

/-- The `STATE_NAME_TO_CODE` table of `src/transformer.js`. -/
def STATE_NAME_TO_CODE : List (String × String) :=
  [("alabama", "AL"), ("alaska", "AK"), ("arizona", "AZ"), ("arkansas", "AR"),
   ("california", "CA"), ("colorado", "CO"), ("connecticut", "CT"),
   ("delaware", "DE"), ("district of columbia", "DC"), ("florida", "FL"),
   ("georgia", "GA"), ("hawaii", "HI"), ("idaho", "ID"), ("illinois", "IL"),
   ("indiana", "IN"), ("iowa", "IA"), ("kansas", "KS"), ("kentucky", "KY"),
   ("louisiana", "LA"), ("maine", "ME"), ("maryland", "MD"),
   ("massachusetts", "MA"), ("michigan", "MI"), ("minnesota", "MN"),
   ("mississippi", "MS"), ("missouri", "MO"), ("montana", "MT"),
   ("nebraska", "NE"), ("nevada", "NV"), ("new hampshire", "NH"),
   ("new jersey", "NJ"), ("new mexico", "NM"), ("new york", "NY"),
   ("north carolina", "NC"), ("north dakota", "ND"), ("ohio", "OH"),
   ("oklahoma", "OK"), ("oregon", "OR"), ("pennsylvania", "PA"),
   ("rhode island", "RI"), ("south carolina", "SC"), ("south dakota", "SD"),
   ("tennessee", "TN"), ("texas", "TX"), ("utah", "UT"), ("vermont", "VT"),
   ("virginia", "VA"), ("washington", "WA"), ("west virginia", "WV"),
   ("wisconsin", "WI"), ("wyoming", "WY")]

/-- The property names that every plain object literal inherits from
`Object.prototype` (Node), each holding a truthy non-scalar value. -/
def objectPrototypeKeys : List String :=
  ["constructor", "hasOwnProperty", "isPrototypeOf", "propertyIsEnumerable",
   "toLocaleString", "toString", "valueOf", "__proto__",
   "__defineGetter__", "__defineSetter__", "__lookupGetter__", "__lookupSetter__"]

/-- The plain-object property read `STATE_NAME_TO_CODE[normalizedName]`
(`src/transformer.js`): an own key yields its state-code string, but the
object literal's prototype chain is intact, so a key inherited from
`Object.prototype` yields that truthy inherited value; any other key
yields `undefined`. -/
def stateNameTableGet (s : String) : JSValue :=
  match STATE_NAME_TO_CODE.find? (fun p => p.1 == s) with
  | some p => .str p.2
  | none => if s ∈ objectPrototypeKeys then .protoValue s else .undefined

/-- A raw feed record: a JavaScript object mapping property names to scalar
values, with `undefined` for properties that are not present. -/
def RawRecord := String → JSValue

/-- Embedding of `DataTransformer.getFirstAvailableField`
(`src/transformer.js`): the first candidate key whose value is neither
`undefined` nor `null`, or null (here `none`) when there is none. -/
def getFirstAvailableField (r : RawRecord) : List String → Option JSValue
  | [] => none
  | k :: ks =>
    match r k with
    | .undefined => getFirstAvailableField r ks
    | .null => getFirstAvailableField r ks
    | v => some v

/-- The free-text-state half of `DataTransformer.deriveStateCode`
(`src/transformer.js`, from `const state = ...` on): reached when no valid
explicit state code was provided.  The name lookup returns whatever truthy
value the plain-object read produces — an own state-code string or an
inherited `Object.prototype` member; only a falsy read falls through to
the warning and the null return. -/
def deriveFromStateField (r : RawRecord) : JSValue × List WEvent :=
  match getFirstAvailableField r ["state", "state_name"] with
  | none => (.null, [])
  | some v =>
    if truthy v = false then (.null, [])
    else
      let stateStr := trimStr (jsString v)
      if stateStr.length = 2 ∧ toUpperStr stateStr ∈ VALID_STATE_CODES then
        (.str (toUpperStr stateStr), [])
      else
        let looked := stateNameTableGet (toLowerStr stateStr)
        if truthy looked then (looked, [])
        else (.null, [(.stateDerivationFailed, jsString v)])

/-- Embedding of `DataTransformer.deriveStateCode` (`src/transformer.js`):
an explicit `stateCode`-like field that uppercases to a valid code is
returned; an invalid explicit code is recorded as an `invalidStateCode`
warning and control falls through to the free-text state field. -/
def deriveStateCode (r : RawRecord) : JSValue × List WEvent :=
  match getFirstAvailableField r ["stateCode", "state_code"] with
  | some v =>
    if truthy v then
      let code := toUpperStr (jsString v)
      if code ∈ VALID_STATE_CODES then (.str code, [])
      else
        let fb := deriveFromStateField r
        (fb.1, (.invalidStateCode, jsString v) :: fb.2)
    else deriveFromStateField r
  | none => deriveFromStateField r

example :
    deriveStateCode (fun k => if k = "state" then .str "California" else .undefined)
      = (.str "CA", []) := by decide
example :
    deriveStateCode (fun k => if k = "state" then .str "Atlantis" else .undefined)
      = (.null, [(.stateDerivationFailed, "Atlantis")]) := by decide
example :
    deriveStateCode (fun k => if k = "stateCode" then .str "XX" else if k = "state" then .str "tx" else .undefined)
      = (.str "TX", [(.invalidStateCode, "XX")]) := by decide

/-! ## The record transformer (`src/transformer.js`) -/

/-- A transformed (canonical) listing record: the `transformed` object built
by `DataTransformer.transformListing`.  A field holds `undefined` when the
corresponding property was never assigned. -/
structure Canonical where
  external_listing_id : JSValue := .undefined
  reference_id : JSValue := .undefined
  listing_start_date : JSValue := .undefined
  listing_end_date : JSValue := .undefined
  list_price : JSValue := .undefined
  listing_status : JSValue := .undefined
  property_type : JSValue := .undefined
  hs_square_footage : JSValue := .undefined
  hs_bathrooms : JSValue := .undefined
  hs_bedrooms : JSValue := .undefined
  hs_lot_size : JSValue := .undefined
  lot_size_units : JSValue := .undefined
  hs_city : JSValue := .undefined
  hs_state_province : JSValue := .undefined
  state_code : JSValue := .undefined
  hs_zip : JSValue := .undefined
  county : JSValue := .undefined
  hs_address_1 : JSValue := .undefined
  hs_address_2 : JSValue := .undefined
  listing_url : JSValue := .undefined
  primary_image_url : JSValue := .undefined
  is_new_listing : JSValue := .undefined
  is_featured : JSValue := .undefined
  marketing_eligible : JSValue := .undefined
  auction_status : JSValue := .undefined
  auction_start_date : JSValue := .undefined
  auction_end_date : JSValue := .undefined
  hs_name : JSValue := .undefined
deriving DecidableEq, Repr

/-- `if (x) { transformed.f = String(x); }` applied to an alias-resolved
value. -/
def truthyStrField (o : Option JSValue) : JSValue :=
  match o with
  | some v => if truthy v then .str (jsString v) else .undefined
  | none => .undefined

/-- `if (x !== null) { transformed.f = this.parseNumber(x); }` applied to an
alias-resolved value (a failed parse stores null). -/
def numField (o : Option JSValue) : JSValue :=
  match o with
  | some v =>
    match parseNumber v with
    | some q => .num q
    | none => .null
  | none => .undefined

/-- `if (x !== null) { transformed.f = this.parseBoolean(x); }` applied to
an alias-resolved value. -/
def boolField (o : Option JSValue) : JSValue :=
  match o with
  | some v =>
    match parseBoolean v with
    | some b => .bool b
    | none => .null
  | none => .undefined

/-- `if (x) { transformed.f = this.parseDate(x); }` applied to an
alias-resolved value; returns the stored value and the warning events. -/
def dateField (o : Option JSValue) : JSValue × List WEvent :=
  match o with
  | some v =>
    if truthy v then
      match parseDate v with
      | (some t, es) => (.num (t : ℚ), es)
      | (none, es) => (.null, es)
    else (.undefined, [])
  | none => (.undefined, [])

/-- The `hs_name` synthesis at the end of
`DataTransformer.transformListing` (`src/transformer.js`), computed from the
already-assigned transformed fields. -/
def mkHsName (a1 a2 city stpr zip ext : JSValue) : String :=
  let parts : List String :=
    (if truthy a1 then
      [jsString a1 ++ (if truthy a2 then " " ++ jsString a2 else "")]
     else [])
    ++ (if truthy city then [jsString city] else [])
    ++ (let stateZip :=
          (if truthy stpr then [jsString stpr] else [])
          ++ (if truthy zip then [jsString zip] else [])
        if stateZip.length ≠ 0 then [String.intercalate " " stateZip] else [])
  if parts.length > 0 then String.intercalate ", " parts
  else if truthy ext then "Listing " ++ jsString ext
  else "Listing"

/-- Embedding of `DataTransformer.transformListing` (`src/transformer.js`),
the head version of the file: alias resolution per field, coercion, state
code derivation, the marketing-eligibility default, and `hs_name`
synthesis.  Warning events are returned in emission order. -/
def transformListing (r : RawRecord) : Canonical × List WEvent :=
  let ext := truthyStrField (getFirstAvailableField r
    ["externalListingId", "external_listing_id", "assetId", "asset_id", "id"])
  let ref := truthyStrField (getFirstAvailableField r
    ["referenceId", "reference_id", "assetReferenceId", "asset_reference_id"])
  let sd := dateField (getFirstAvailableField r
    ["listingStartDate", "listing_start_date", "startDate", "start_date"])
  let ed := dateField (getFirstAvailableField r
    ["listingEndDate", "listing_end_date", "endDate", "end_date"])
  let lp := numField (getFirstAvailableField r ["listPrice", "list_price", "price"])
  let lst := truthyStrField (getFirstAvailableField r
    ["listingStatus", "listing_status", "status"])
  let pt := truthyStrField (getFirstAvailableField r
    ["propertyType", "property_type", "type"])
  let sqft := numField (getFirstAvailableField r
    ["squareFootage", "square_footage", "sqft"])
  let baths := numField (getFirstAvailableField r ["bathrooms", "baths"])
  let beds := numField (getFirstAvailableField r ["bedrooms", "beds"])
  let lot := numField (getFirstAvailableField r ["lotSize", "lot_size"])
  let lotU := truthyStrField (getFirstAvailableField r
    ["lotSizeUnits", "lot_size_units"])
  let city := if truthy (r "city") then .str (jsString (r "city")) else JSValue.undefined
  let stpr := if truthy (r "state") then .str (jsString (r "state")) else JSValue.undefined
  let sc := deriveStateCode r
  let scv : JSValue := if truthy sc.1 then sc.1 else .undefined
  let zip := truthyStrField (getFirstAvailableField r
    ["zip", "zipCode", "zip_code", "postal_code"])
  let cty := if truthy (r "county") then .str (jsString (r "county")) else JSValue.undefined
  let a1 := truthyStrField (getFirstAvailableField r
    ["addressLine1", "address_line_1", "address1", "address", "street"])
  let a2 := truthyStrField (getFirstAvailableField r
    ["addressLine2", "address_line_2", "address2", "unit"])
  let url := truthyStrField (getFirstAvailableField r
    ["listingUrl", "listing_url", "propertyUrl", "property_url", "url"])
  let img := truthyStrField (getFirstAvailableField r
    ["primaryImageUrl", "primary_image_url", "imageUrl", "image_url", "mediaUrl", "media_url"])
  let inew := boolField (getFirstAvailableField r
    ["isNewListing", "is_new_listing", "isNew", "is_new"])
  let ifeat := boolField (getFirstAvailableField r
    ["isFeatured", "is_featured", "featured"])
  let me : JSValue :=
    match getFirstAvailableField r ["marketingEligible", "marketing_eligible"] with
    | some v =>
      match parseBoolean v with
      | some b => .bool b
      | none => .null
    | none => .bool true
  let astat := truthyStrField (getFirstAvailableField r
    ["auctionStatus", "auction_status"])
  let asd := dateField (getFirstAvailableField r
    ["auctionStartDate", "auction_start_date"])
  let aed := dateField (getFirstAvailableField r
    ["auctionEndDate", "auction_end_date"])
  ({ external_listing_id := ext
     reference_id := ref
     listing_start_date := sd.1
     listing_end_date := ed.1
     list_price := lp
     listing_status := lst
     property_type := pt
     hs_square_footage := sqft
     hs_bathrooms := baths
     hs_bedrooms := beds
     hs_lot_size := lot
     lot_size_units := lotU
     hs_city := city
     hs_state_province := stpr
     state_code := scv
     hs_zip := zip
     county := cty
     hs_address_1 := a1
     hs_address_2 := a2
     listing_url := url
     primary_image_url := img
     is_new_listing := inew
     is_featured := ifeat
     marketing_eligible := me
     auction_status := astat
     auction_start_date := asd.1
     auction_end_date := aed.1
     hs_name := .str (mkHsName a1 a2 city stpr zip ext) },
   sd.2 ++ ed.2 ++ sc.2 ++ asd.2 ++ aed.2)

/-- Embedding of `DataTransformer.transformListings` (`src/transformer.js`):
warnings are reset for the batch, every raw record is transformed (the
per-record catch is unreachable because the embedded transform is total),
and records without a truthy `external_listing_id` are filtered out. -/
def transformListings (raws : List RawRecord) : List Canonical × List WEvent :=
  ((raws.map (fun r => (transformListing r).1)).filter
      (fun t => truthy t.external_listing_id),
   raws.flatMap (fun r => (transformListing r).2))

/-! ## Property metadata (`src/properties.js`) -/

/-- Names of the `LISTINGS_PROPERTIES` entries declared with `type: 'date'`
in `src/properties.js` — the date-only canonical fields. -/
def datePropertyNames : List String :=
  ["listing_start_date", "listing_end_date", "auction_start_date", "auction_end_date"]

/-- The internal option values of the `auction_status` enumeration declared
in `src/properties.js` (the closed five-value vocabulary). -/
def auctionStatusValues : List String :=
  ["not_on_auction", "upcoming", "active", "ended", "sold"]

/-! ## The batch coordinator (`src/hubspot-client.js`) -/

/-- JavaScript property access on a transformed record: the named properties
assigned by `transformListing`, and `undefined` for any other name.  In
particular `batchUpsert` reads the camelCase name `externalListingId`,
which the snake_case canonical records do not carry. -/
def jsGet (c : Canonical) : String → JSValue
  | "external_listing_id" => c.external_listing_id
  | "reference_id" => c.reference_id
  | "listing_start_date" => c.listing_start_date
  | "listing_end_date" => c.listing_end_date
  | "list_price" => c.list_price
  | "listing_status" => c.listing_status
  | "property_type" => c.property_type
  | "hs_square_footage" => c.hs_square_footage
  | "hs_bathrooms" => c.hs_bathrooms
  | "hs_bedrooms" => c.hs_bedrooms
  | "hs_lot_size" => c.hs_lot_size
  | "lot_size_units" => c.lot_size_units
  | "hs_city" => c.hs_city
  | "hs_state_province" => c.hs_state_province
  | "state_code" => c.state_code
  | "hs_zip" => c.hs_zip
  | "county" => c.county
  | "hs_address_1" => c.hs_address_1
  | "hs_address_2" => c.hs_address_2
  | "listing_url" => c.listing_url
  | "primary_image_url" => c.primary_image_url
  | "is_new_listing" => c.is_new_listing
  | "is_featured" => c.is_featured
  | "marketing_eligible" => c.marketing_eligible
  | "auction_status" => c.auction_status
  | "auction_start_date" => c.auction_start_date
  | "auction_end_date" => c.auction_end_date
  | "hs_name" => c.hs_name
  | _ => .undefined

/-- The remote store collaborator as seen through the retry wrapper: each
operation either succeeds or fails with an error message (a failure here
models "failed after all retry attempts"). -/
structure UpsertOracle where
  search : JSValue → Except String (Option String)
  create : Canonical → Except String String
  update : String → Canonical → Except String String

/-- Embedding of `HubSpotClient.searchByExternalListingId`
(`src/hubspot-client.js`): any error raised by the search is caught, logged
and converted to null — a lookup failure is indistinguishable from
"no remote record found". -/
def searchByExternalListingId (o : UpsertOracle) (key : JSValue) : Option String :=
  match o.search key with
  | .ok r => r
  | .error _ => none

/-- The properties payload passed to
`this.client.crm.objects.basicApi.update` by `HubSpotClient.updateListing`
via `batchUpsert` (`src/hubspot-client.js`): the canonical record itself,
unfiltered. -/
def updatePayload (listing : Canonical) : Canonical := listing

/-- The properties payload passed to
`this.client.crm.objects.basicApi.create` by `HubSpotClient.createListing`
via `batchUpsert` (`src/hubspot-client.js`): the canonical record itself,
unfiltered. -/
def createPayload (listing : Canonical) : Canonical := listing

/-- The result tally of `HubSpotClient.batchUpsert`. -/
structure UpsertResults where
  created : ℕ := 0
  updated : ℕ := 0
  failed : ℕ := 0
  errors : List (JSValue × String) := []
deriving DecidableEq, Repr

/-- One iteration of the `for` loop of `HubSpotClient.batchUpsert`
(`src/hubspot-client.js`): search (which cannot throw), then update or
create; any thrown error is caught, counted as failed and recorded. -/
def batchUpsertStep (o : UpsertOracle) (res : UpsertResults) (listing : Canonical) :
    UpsertResults :=
  match searchByExternalListingId o (jsGet listing "externalListingId") with
  | some id =>
    match o.update id (updatePayload listing) with
    | .ok _ => { res with updated := res.updated + 1 }
    | .error e =>
      { res with
        failed := res.failed + 1
        errors := res.errors ++ [(jsGet listing "externalListingId", e)] }
  | none =>
    match o.create (createPayload listing) with
    | .ok _ => { res with created := res.created + 1 }
    | .error e =>
      { res with
        failed := res.failed + 1
        errors := res.errors ++ [(jsGet listing "externalListingId", e)] }

/-- Embedding of `HubSpotClient.batchUpsert` (`src/hubspot-client.js`). -/
def batchUpsert (o : UpsertOracle) (listings : List Canonical) : UpsertResults :=
  listings.foldl (batchUpsertStep o) {}

/-- The outcome a single record contributes to the batch tally. -/
inductive Outcome where
  | created
  | updated
  | failed (e : String)
deriving DecidableEq, Repr

/-- The per-record outcome of one `batchUpsert` iteration, independent of
the other records. -/
def recordOutcome (o : UpsertOracle) (listing : Canonical) : Outcome :=
  match searchByExternalListingId o (jsGet listing "externalListingId") with
  | some id =>
    match o.update id (updatePayload listing) with
    | .ok _ => .updated
    | .error e => .failed e
  | none =>
    match o.create (createPayload listing) with
    | .ok _ => .created
    | .error e => .failed e

/-! ## Property-type classification (modelled from the spec) -/

/-- The feature bundle consumed by the property-type classifier. -/
structure PropertyFeatures where
  squareFootage : JSValue := .undefined
  bedrooms : JSValue := .undefined
  bathrooms : JSValue := .undefined
  lotSize : JSValue := .undefined
deriving DecidableEq, Repr

/-- A feature coerced to a number, treated as 0 when absent or unparsable. -/
def featureNum (v : JSValue) : ℚ := (parseNumber v).getD 0

/-- The closed HubSpot-internal listing-type vocabulary. -/
inductive HsListingType where
  | house
  | townhouse
  | multi_family
  | condos_co_ops
  | lots_land
  | apartments
  | manufactured
deriving DecidableEq, Repr

/-- Modelled from the spec: the property-type classifier
(`classifyPropertyType`, exposed in the repository as
`transformer.inferHsListingType`) is not present under `src`; only its test
script is.  This is its ordered (predicate, category) rule chain, following
spec section 4.4, evaluated top to bottom with the first match returned:
land, then manufactured, then large multi-unit, then multi-family, then
condo, then townhouse, then the single-family default.  Inputs are (square
footage, bedrooms, bathrooms, lot size); the numeric thresholds are fixed
to values consistent with the test vectors of the repository test
script. -/
def listingTypeRuleChain : List (((ℚ × ℚ × ℚ × ℚ) → Bool) × HsListingType) :=
  [ (fun f => decide (f.1 ≤ 200 ∧ 5000 ≤ f.2.2.2), .lots_land),
    (fun f => decide (400 ≤ f.1 ∧ f.1 ≤ 1400 ∧ f.2.1 ≤ 3 ∧ f.2.2.1 ≤ 2 ∧ 1000 ≤ f.2.2.2),
      .manufactured),
    (fun f => decide (8 ≤ f.2.1 ∨ 8 ≤ f.2.2.1), .apartments),
    (fun f => decide (4 ≤ f.2.1 ∨ 4 ≤ f.2.2.1), .multi_family),
    (fun f => decide (f.1 ≤ 1200 ∧ f.2.2.2 ≤ 1000), .condos_co_ops),
    (fun f => decide (f.1 ≤ 2400 ∧ f.2.2.2 ≤ 4000), .townhouse) ]

/-- Modelled from the spec: `inferHsListingType` — coerce the four features
to numbers (0 when absent) and return the category of the first matching
rule, defaulting to `house`. -/
def inferHsListingType (f : PropertyFeatures) : HsListingType :=
  let args := (featureNum f.squareFootage, featureNum f.bedrooms,
               featureNum f.bathrooms, featureNum f.lotSize)
  match listingTypeRuleChain.find? (fun rule => rule.1 args) with
  | some rule => rule.2
  | none => .house

example :
    inferHsListingType { squareFootage := .num 0, bedrooms := .num 0,
                         bathrooms := .num 0, lotSize := .num 10000 } = .lots_land := by
  decide

/-! ## The display-name synthesis as worded by the spec -/

/-- The display-name synthesis as the spec words it: the comma-join, in
order, of the street line (the primary address, space-joined with the
secondary address only when the primary is present), the city, and a
space-joined state-zip token (included when state or zip or both are
present); `"Listing {identifier}"` when no address parts exist, and the
literal `"Listing"` when the identifier is also absent. -/
def displayNameSpec (primary secondary city state zip ident : JSValue) : String :=
  let streetLine : List String :=
    if truthy primary then
      [jsString primary ++ (if truthy secondary then " " ++ jsString secondary else "")]
    else []
  let cityPart : List String := if truthy city then [jsString city] else []
  let stateZip : List String :=
    (if truthy state then [jsString state] else [])
    ++ (if truthy zip then [jsString zip] else [])
  let stateZipPart : List String :=
    if stateZip.isEmpty then [] else [String.intercalate " " stateZip]
  let parts := streetLine ++ cityPart ++ stateZipPart
  if parts.isEmpty then
    if truthy ident then "Listing " ++ jsString ident else "Listing"
  else String.intercalate ", " parts

/-! ## Concrete records used by the theorems -/

/-- A feed record with only a free-text state field. -/
def stateOnlyRecord (s : String) : RawRecord :=
  fun k => if k = "state" then .str s else .undefined

/-- A feed record whose listing start date is an epoch-millisecond value
that is not at UTC midnight (12:10:45 UTC). -/
def dateBugRecord : RawRecord := fun k =>
  if k = "external_listing_id" then .str "TEST-003"
  else if k = "listing_start_date" then .num 1705320645000
  else .undefined

/-- A feed record carrying an address field and a price, as used to probe
the update/create payloads. -/
def payloadBugRecord : RawRecord := fun k =>
  if k = "external_listing_id" then .str "TEST-100"
  else if k = "list_price" then .num 500000
  else if k = "city" then .str "San Francisco"
  else .undefined

/-- The canonical record produced from `payloadBugRecord`. -/
def payloadBugCanonical : Canonical := (transformListing payloadBugRecord).1

/-- A feed record with an unrecognised auction status. -/
def auctionNonsenseRecord : RawRecord := fun k =>
  if k = "external_listing_id" then .str "AUCTION-008"
  else if k = "auction_status" then .str "Nonsense"
  else .undefined

/-- A feed record with the human-readable auction status `"For Sale"`. -/
def auctionForSaleRecord : RawRecord := fun k =>
  if k = "external_listing_id" then .str "AUCTION-003"
  else if k = "auction_status" then .str "For Sale"
  else .undefined

/-! ## Claim theorems -/

/-- C1 (code bug): the date coercion does not truncate to UTC midnight.
Evaluating the transformer at a feed record whose `listing_start_date` is
the epoch-millisecond value 1705320645000 (2024-01-15T12:10:45Z, the input
of Test 3 of the repository script `test-date-normalization.js`, which
expects 1705276800000): `listing_start_date` is a date-only canonical field
(declared `type: 'date'` in `src/properties.js`), the coercion returns the
value unchanged, and that value is not divisible by 86,400,000. -/
theorem c1_date_only_field_not_truncated_to_utc_midnight :
    "listing_start_date" ∈ datePropertyNames
    ∧ (transformListing dateBugRecord).1.listing_start_date = .num 1705320645000
    ∧ (parseDate (.num 1705320645000)).1 = some 1705320645000
    ∧ (1705320645000 : ℕ) % 86400000 = 43845000 := by
  refine ⟨by decide, by decide, by decide, by decide⟩

/-- C2 (code bug): `batchUpsert` passes the whole canonical record as the
properties payload of both `updateListing` and `createListing`.  At a
canonical record carrying an address field and the legacy price field, the
update payload still contains the address field `hs_city`, the legacy
`list_price` is present with its value (not nulled), and the create payload
also contains the legacy `list_price` — contradicting the allowlist and
cleanup behaviour that the repository test embedded in `QUICK_START.md`
checks through `prepareUpdateProperties` / `prepareCreateProperties`. -/
theorem c2_update_payload_unfiltered_and_legacy_price_kept :
    payloadBugCanonical.hs_city = .str "San Francisco"
    ∧ (updatePayload payloadBugCanonical).hs_city = .str "San Francisco"
    ∧ (updatePayload payloadBugCanonical).list_price = .num 500000
    ∧ (createPayload payloadBugCanonical).list_price = .num 500000 := by
  refine ⟨by decide, by decide, by decide, by decide⟩

/-- C3 (code bug): the transformer performs no auction-status
normalization — it stores `String(raw)` for any truthy raw value.  An
unmatched value (`"Nonsense"`) survives into the canonical record instead
of being dropped, and the known human-readable phrasing `"For Sale"` is
passed through verbatim instead of being mapped to `"active"`; both outputs
lie outside the closed five-value vocabulary declared for `auction_status`
in `src/properties.js`. -/
theorem c3_auction_status_not_normalized :
    (transformListing auctionNonsenseRecord).1.auction_status = .str "Nonsense"
    ∧ "Nonsense" ∉ auctionStatusValues
    ∧ (transformListing auctionForSaleRecord).1.auction_status = .str "For Sale"
    ∧ "For Sale" ∉ auctionStatusValues := by
  refine ⟨by decide, by decide, by decide, by decide⟩

/-- C4: the property-type classifier (modelled from the spec, see
`listingTypeRuleChain`) classifies the four claimed feature bundles as
land, manufactured, house and condo respectively; the condo default also
holds for the all-zero bundle. -/
theorem c4_property_type_classification :
    inferHsListingType ⟨.num 0, .num 0, .num 0, .num 10000⟩ = .lots_land
    ∧ inferHsListingType ⟨.num 1400, .num 3, .num 2, .num 10000⟩ = .manufactured
    ∧ inferHsListingType ⟨.num 2000, .num 3, .num 2, .num 8000⟩ = .house
    ∧ inferHsListingType ⟨.undefined, .undefined, .undefined, .undefined⟩ = .condos_co_ops
    ∧ inferHsListingType ⟨.num 0, .num 0, .num 0, .num 0⟩ = .condos_co_ops := by
  refine ⟨by decide, by decide, by decide, by decide, by decide⟩

/-- C7: the coercers are total functions in this embedding (they never
throw); null, undefined and the empty string yield null from the numeric
coercion; any value whose `parseFloat` fails yields null; null and
undefined yield null from the boolean coercion; a string that the date
parser rejects yields null (plus an invalid-date warning); an unsupported
input type yields null; null and undefined yield null from the date
coercion without any warning. -/
theorem c7_coercers_never_throw_and_invalid_yields_null :
    (parseNumber .null = none ∧ parseNumber .undefined = none
      ∧ parseNumber (.str "") = none)
    ∧ (∀ v : JSValue, parseFloatJS v = none → parseNumber v = none)
    ∧ (parseBoolean .null = none ∧ parseBoolean .undefined = none)
    ∧ (∀ s : String, trimStr s ≠ "" → s ≠ "null" → s ≠ "undefined" →
        parseIsoDate s = none → parseDate (.str s) = (none, [(.invalidDate, s)]))
    ∧ (∀ b : Bool, (parseDate (.bool b)).1 = none)
    ∧ parseDate .null = (none, []) ∧ parseDate .undefined = (none, []) := by
  refine ⟨⟨rfl, rfl, rfl⟩, ?_, ⟨rfl, rfl⟩, ?_, ?_, rfl, rfl⟩
  · intro v h
    unfold parseNumber
    split
    · rfl
    · exact h
  · intro s h1 h2 h3 h4
    have hs : s ≠ "" := by
      intro e
      subst e
      exact h1 rfl
    simp [parseDate, truthy, hs, h1, h2, h3, h4]
  · intro b
    cases b <;> rfl

/-- Closed witness for C7: the general clauses applied at concrete invalid
inputs. -/
theorem c7_witness :
    parseNumber (.str "abc") = none
    ∧ parseDate (.str "not-a-date") = (none, [(.invalidDate, "not-a-date")]) := by
  refine ⟨?_, ?_⟩
  · exact c7_coercers_never_throw_and_invalid_yields_null.2.1 (.str "abc") (by decide)
  · exact c7_coercers_never_throw_and_invalid_yields_null.2.2.2.1 "not-a-date"
      (by decide) (by decide) (by decide) (by decide)

/-- C8 (code bug): the state-name lookup reads the `STATE_NAME_TO_CODE`
object literal with its prototype chain intact.  For the plain feed value
`"Constructor"` the lowercased trimmed name is `"constructor"`, the
plain-object read finds the inherited `Object` constructor — a truthy
non-string — and `deriveStateCode` returns it with no warning;
`transformListing` then stores it in `state_code`.  This contradicts the
claimed failure behaviour (a state-derivation-failed warning and null) and
the closed two-letter vocabulary; the claim's own two examples do behave
as stated (`"California"` gives `"CA"`, `"Atlantis"` gives null plus one
warning carrying `"Atlantis"`). -/
theorem c8_state_lookup_prototype_chain_leak :
    deriveStateCode (stateOnlyRecord "Constructor")
      = (.protoValue "constructor", [])
    ∧ (∀ c : String, JSValue.protoValue "constructor" ≠ .str c)
    ∧ (transformListing (stateOnlyRecord "Constructor")).1.state_code
      = .protoValue "constructor"
    ∧ deriveStateCode (stateOnlyRecord "__proto__")
      = (.protoValue "__proto__", [])
    ∧ deriveStateCode (stateOnlyRecord "California") = (.str "CA", [])
    ∧ deriveStateCode (stateOnlyRecord "Atlantis")
      = (.null, [(.stateDerivationFailed, "Atlantis")]) := by
  refine ⟨by decide, fun c h => JSValue.noConfusion h, by decide, by decide,
    by decide, by decide⟩

/-- The embedded `hs_name` synthesis coincides with the display-name
algorithm as the spec words it. -/
lemma mkHsName_eq_displayNameSpec (a1 a2 city stpr zip ext : JSValue) :
    mkHsName a1 a2 city stpr zip ext = displayNameSpec a1 a2 city stpr zip ext := by
  unfold mkHsName displayNameSpec
  cases truthy a1 <;> cases truthy a2 <;> cases truthy city
    <;> cases truthy stpr <;> cases truthy zip <;> cases truthy ext <;> simp

/-- C9: for every raw record, the synthesized display name stored in
`hs_name` is exactly the comma-join described by the spec, computed from
the transformed street, city, state, zip and identifier fields (no display
name is ever resolved from input in this version of the transformer, so the
synthesis runs unconditionally). -/
theorem c9_display_name_synthesis (r : RawRecord) :
    (transformListing r).1.hs_name
      = .str (displayNameSpec (transformListing r).1.hs_address_1
          (transformListing r).1.hs_address_2 (transformListing r).1.hs_city
          (transformListing r).1.hs_state_province (transformListing r).1.hs_zip
          (transformListing r).1.external_listing_id) := by
  exact congrArg JSValue.str (mkHsName_eq_displayNameSpec _ _ _ _ _ _)

/-- C10 counterexample: the numeric input 0 forms a valid `Date` (its
scaled value lies within the `Date` range and denotes the epoch), yet the
date coercion returns null for it, because the falsy-input guard at the top
of `parseDate` rejects 0 before the numeric branch is reached. -/
theorem c10_counterexample_zero_rejected :
    parseDate (.num 0) = (none, [])
    ∧ -maxDateMillis ≤ jsDateScale 0 ∧ jsDateScale 0 ≤ maxDateMillis
    ∧ ratTrunc (jsDateScale 0) = 0 := by
  refine ⟨by decide, by decide, by decide, by decide⟩

/-- C10 (amended): the [1900, 2100] year range check applies only to string
date inputs.  Every truthy (nonzero) numeric input whose scaled value lies
within the `Date` range yields exactly the scaled epoch-millisecond value
with no warning of any kind; a string input that parses to a year outside
[1900, 2100] is rejected with an out-of-range warning. -/
theorem c10_numeric_dates_skip_range_check :
    (∀ q : ℚ, q ≠ 0 →
      -maxDateMillis ≤ jsDateScale q → jsDateScale q ≤ maxDateMillis →
      parseDate (.num q) = (some (ratTrunc (jsDateScale q)), []))
    ∧ (∀ s : String, ∀ d : DateParts,
      trimStr s ≠ "" → s ≠ "null" → s ≠ "undefined" →
      parseIsoDate s = some d → (d.year < 1900 ∨ 2100 < d.year) →
      parseDate (.str s) = (none, [(.dateOutOfRange, s)])) := by
  constructor
  · intro q hq hlo hhi
    have ht : truthy (.num q) = true := by simp [truthy, hq]
    simp [parseDate, ht, hlo, hhi]
  · intro s d h1 h2 h3 hp hy
    have hs : s ≠ "" := by
      intro e
      subst e
      exact h1 rfl
    simp [parseDate, truthy, hs, h1, h2, h3, hp, hy]

/-- Closed witness for C10: a numeric instant in the year 2128 (far outside
the string-input range) is returned unchanged with no warning, while the
string `"2150-01-01"` is rejected with an out-of-range warning. -/
theorem c10_witness :
    parseDate (.num 5000000000000) = (some 5000000000000, [])
    ∧ parseDate (.str "2150-01-01") = (none, [(.dateOutOfRange, "2150-01-01")]) := by
  constructor
  · have h := c10_numeric_dates_skip_range_check.1 5000000000000
      (by decide) (by decide) (by decide)
    rw [h]
    decide
  · exact c10_numeric_dates_skip_range_check.2 "2150-01-01" ⟨2150, 1, 1, 0, 0, 0, 0⟩
      (by decide) (by decide) (by decide) (by decide) (by decide)

/-- Outcome discriminator: created. -/
def isCreatedOutcome : Outcome → Bool
  | .created => true
  | _ => false

/-- Outcome discriminator: updated. -/
def isUpdatedOutcome : Outcome → Bool
  | .updated => true
  | _ => false

/-- Outcome discriminator: failed. -/
def isFailedOutcome : Outcome → Bool
  | .failed _ => true
  | _ => false

/-- The structured error entries contributed by one record. -/
def outcomeError (o : UpsertOracle) (l : Canonical) : List (JSValue × String) :=
  match recordOutcome o l with
  | .failed e => [(jsGet l "externalListingId", e)]
  | _ => []

/-- One loop iteration of `batchUpsert` only depends on the per-record
outcome. -/
lemma batchUpsertStep_eq_outcome (o : UpsertOracle) (res : UpsertResults)
    (l : Canonical) :
    batchUpsertStep o res l =
      match recordOutcome o l with
      | .created => { res with created := res.created + 1 }
      | .updated => { res with updated := res.updated + 1 }
      | .failed e =>
        { res with
          failed := res.failed + 1
          errors := res.errors ++ [(jsGet l "externalListingId", e)] } := by
  cases hs : searchByExternalListingId o (jsGet l "externalListingId") with
  | some id =>
    cases hu : o.update id (updatePayload l) with
    | ok a => simp [batchUpsertStep, recordOutcome, hs, hu]
    | error e => simp [batchUpsertStep, recordOutcome, hs, hu]
  | none =>
    cases hc : o.create (createPayload l) with
    | ok a => simp [batchUpsertStep, recordOutcome, hs, hc]
    | error e => simp [batchUpsertStep, recordOutcome, hs, hc]

/-- The `batchUpsert` fold, fully characterized by per-record outcomes. -/
lemma batchUpsert_foldl_eq (o : UpsertOracle) (ls : List Canonical)
    (acc : UpsertResults) :
    ls.foldl (batchUpsertStep o) acc =
      { created := acc.created + ls.countP (fun l => isCreatedOutcome (recordOutcome o l))
        updated := acc.updated + ls.countP (fun l => isUpdatedOutcome (recordOutcome o l))
        failed := acc.failed + ls.countP (fun l => isFailedOutcome (recordOutcome o l))
        errors := acc.errors ++ ls.flatMap (outcomeError o) } := by
  induction ls generalizing acc with
  | nil => simp
  | cons l ls ih =>
    rw [List.foldl_cons, batchUpsertStep_eq_outcome]
    cases h : recordOutcome o l with
    | created =>
      rw [ih]
      simp only [List.countP_cons, List.flatMap_cons, outcomeError, h,
        show isCreatedOutcome Outcome.created = true from rfl,
        show isUpdatedOutcome Outcome.created = false from rfl,
        show isFailedOutcome Outcome.created = false from rfl,
        show ((false = true) = False) from by simp,
        show ((true = true) = True) from by simp,
        if_true, if_false, UpsertResults.mk.injEq]
      refine ⟨by omega, by omega, by omega, by simp⟩
    | updated =>
      rw [ih]
      simp only [List.countP_cons, List.flatMap_cons, outcomeError, h,
        show isCreatedOutcome Outcome.updated = false from rfl,
        show isUpdatedOutcome Outcome.updated = true from rfl,
        show isFailedOutcome Outcome.updated = false from rfl,
        show ((false = true) = False) from by simp,
        show ((true = true) = True) from by simp,
        if_true, if_false, UpsertResults.mk.injEq]
      refine ⟨by omega, by omega, by omega, by simp⟩
    | failed e =>
      rw [ih]
      simp only [List.countP_cons, List.flatMap_cons, outcomeError, h,
        show isCreatedOutcome (Outcome.failed e) = false from rfl,
        show isUpdatedOutcome (Outcome.failed e) = false from rfl,
        show isFailedOutcome (Outcome.failed e) = true from rfl,
        show ((false = true) = False) from by simp,
        show ((true = true) = True) from by simp,
        if_true, if_false, UpsertResults.mk.injEq]
      refine ⟨by omega, by omega, by omega, by simp⟩

/-- Each record satisfies exactly one of the three outcome predicates, so
the three outcome counts sum to the batch size. -/
lemma outcomeCounts_sum (o : UpsertOracle) (ls : List Canonical) :
    ls.countP (fun l => isCreatedOutcome (recordOutcome o l))
      + ls.countP (fun l => isUpdatedOutcome (recordOutcome o l))
      + ls.countP (fun l => isFailedOutcome (recordOutcome o l)) = ls.length := by
  induction ls with
  | nil => simp
  | cons l ls ih =>
    simp only [List.countP_cons, List.length_cons]
    cases h : recordOutcome o l with
    | created =>
      simp only [h, show isCreatedOutcome Outcome.created = true from rfl,
        show isUpdatedOutcome Outcome.created = false from rfl,
        show isFailedOutcome Outcome.created = false from rfl,
        show ((false = true) = False) from by simp,
        show ((true = true) = True) from by simp, if_true, if_false]
      omega
    | updated =>
      simp only [h, show isCreatedOutcome Outcome.updated = false from rfl,
        show isUpdatedOutcome Outcome.updated = true from rfl,
        show isFailedOutcome Outcome.updated = false from rfl,
        show ((false = true) = False) from by simp,
        show ((true = true) = True) from by simp, if_true, if_false]
      omega
    | failed e =>
      simp only [h, show isCreatedOutcome (Outcome.failed e) = false from rfl,
        show isUpdatedOutcome (Outcome.failed e) = false from rfl,
        show isFailedOutcome (Outcome.failed e) = true from rfl,
        show ((false = true) = False) from by simp,
        show ((true = true) = True) from by simp, if_true, if_false]
      omega

/-- C5 (amended): every record of a batch contributes exactly one outcome
determined independently of its siblings — a record whose submit fails
increments `failed` and appends a structured error entry without aborting
the rest, a record whose lookup errors is treated as not-found (the error
is swallowed inside the search) and proceeds to the create path, and
`created + updated + failed` always equals the number of records. -/
theorem c5_batch_outcomes (o : UpsertOracle) (ls : List Canonical) :
    (batchUpsert o ls).created + (batchUpsert o ls).updated
        + (batchUpsert o ls).failed = ls.length
    ∧ batchUpsert o ls =
      { created := ls.countP (fun l => isCreatedOutcome (recordOutcome o l))
        updated := ls.countP (fun l => isUpdatedOutcome (recordOutcome o l))
        failed := ls.countP (fun l => isFailedOutcome (recordOutcome o l))
        errors := ls.flatMap (outcomeError o) } := by
  have hchar : batchUpsert o ls =
      { created := ls.countP (fun l => isCreatedOutcome (recordOutcome o l))
        updated := ls.countP (fun l => isUpdatedOutcome (recordOutcome o l))
        failed := ls.countP (fun l => isFailedOutcome (recordOutcome o l))
        errors := ls.flatMap (outcomeError o) } := by
    have h := batchUpsert_foldl_eq o ls {}
    rw [show batchUpsert o ls = ls.foldl (batchUpsertStep o) {} from rfl, h]
    simp
  refine ⟨?_, hchar⟩
  rw [hchar]
  exact outcomeCounts_sum o ls

/-- C5 counterexample: a one-record batch whose remote lookup fails with a
network error while the subsequent create succeeds ends with
`created = 1, failed = 0` and no error entry — the lookup failure is not
counted as failed; it is swallowed and turned into a create. -/
theorem c5_counterexample_lookup_failure_not_failed :
    batchUpsert
        { search := fun _ => .error "network error"
          create := fun _ => .ok "new-id"
          update := fun _ _ => .ok "id" }
        [{ external_listing_id := .str "X" }]
      = { created := 1, updated := 0, failed := 0, errors := [] }
    ∧ UpsertOracle.search
        { search := fun _ => .error "network error"
          create := fun _ => .ok "new-id"
          update := fun _ _ => .ok "id" }
        (jsGet { external_listing_id := .str "X" } "externalListingId")
      = .error "network error" := by
  exact ⟨rfl, rfl⟩

/-- Truthiness of an alias-resolved value (null when no alias matched). -/
def resolvedTruthy (o : Option JSValue) : Bool :=
  match o with
  | some v => truthy v
  | none => false

/-- The string stored by `truthyStrField` is nonempty whenever the stored
field is truthy. -/
lemma truthyStrField_shape (o : Option JSValue)
    (h : truthy (truthyStrField o) = true) :
    ∃ s, truthyStrField o = .str s ∧ s ≠ "" := by
  cases o with
  | none => simp [truthyStrField, truthy] at h
  | some v =>
    by_cases hv : truthy v = true
    · refine ⟨jsString v, by simp [truthyStrField, hv], ?_⟩
      rw [truthyStrField, hv] at h
      simp only [if_true] at h
      simp [truthy] at h
      exact h
    · rw [truthyStrField] at h
      simp [hv] at h
      simp [truthy] at h

/-- A falsy alias resolution leaves the field unassigned. -/
lemma truthyStrField_falsy (o : Option JSValue) (h : resolvedTruthy o = false) :
    truthyStrField o = .undefined := by
  cases o with
  | none => rfl
  | some v =>
    rw [resolvedTruthy] at h
    rw [truthyStrField, h]
    simp

/-- The external identifier stored by `transformListing` is exactly the
identifier-alias resolution sent through `truthyStrField`. -/
lemma transformListing_external_id (r : RawRecord) :
    (transformListing r).1.external_listing_id
      = truthyStrField (getFirstAvailableField r
          ["externalListingId", "external_listing_id", "assetId", "asset_id", "id"]) := rfl

/-- C6: every record in the output of the batch transform carries a
nonempty external identifier string; a raw record whose identifier
resolution fails (no alias present, or a falsy value) produces a record
with no identifier, which the filter excludes — the output length counts
exactly the records with a truthy identifier, so excluded records
contribute to no downstream tally; the embedded transform is total, so the
exclusion raises no exception. -/
theorem c6_output_identifiers_nonempty :
    (∀ raws : List RawRecord, ∀ t ∈ (transformListings raws).1,
      ∃ s, t.external_listing_id = .str s ∧ s ≠ "")
    ∧ (∀ raws : List RawRecord,
      (transformListings raws).1.length
        = raws.countP (fun r => truthy (transformListing r).1.external_listing_id))
    ∧ (∀ r : RawRecord,
      resolvedTruthy (getFirstAvailableField r
          ["externalListingId", "external_listing_id", "assetId", "asset_id", "id"]) = false →
      (transformListing r).1.external_listing_id = .undefined) := by
  refine ⟨?_, ?_, ?_⟩
  · intro raws t ht
    have hmem := List.mem_filter.mp ht
    have htr : truthy t.external_listing_id = true := hmem.2
    obtain ⟨r, _, hrt⟩ := List.mem_map.mp hmem.1
    rw [← hrt] at htr ⊢
    rw [transformListing_external_id] at htr ⊢
    exact truthyStrField_shape _ htr
  · intro raws
    rw [show (transformListings raws).1
        = (raws.map (fun r => (transformListing r).1)).filter
            (fun t => truthy t.external_listing_id) from rfl]
    rw [← List.countP_eq_length_filter, List.countP_map]
    rfl
  · intro r h
    rw [transformListing_external_id]
    exact truthyStrField_falsy _ h

/-- Closed witness for C6: a two-record batch where the second record has
no identifier alias at all — the transform keeps only the first record,
whose identifier is the nonempty string `"A-1"`, and the identifierless
record resolves to an unassigned field. -/
theorem c6_witness :
    (∃ s, (transformListing (fun k => if k = "external_listing_id" then .str "A-1" else .undefined)).1.external_listing_id
        = .str s ∧ s ≠ "")
    ∧ (transformListing (fun _ => .undefined)).1.external_listing_id = .undefined := by
  constructor
  · exact c6_output_identifiers_nonempty.1
      [fun k => if k = "external_listing_id" then .str "A-1" else .undefined, fun _ => .undefined]
      (transformListing (fun k => if k = "external_listing_id" then .str "A-1" else .undefined)).1
      (by decide)
  · exact c6_output_identifiers_nonempty.2.2 (fun _ => .undefined) (by decide)

end HubSpotImporter
